import Mathlib

/-!
Verification of the envelope decoding, result-type dispatch and request
construction of the prometheus-http-query client, shallowly embedded from
`src/client.rs` and `src/result.rs`.

JSON values are modelled by the inductive `Json` type below; JSON numbers
are modelled as integers, since none of the verified properties involve
fractional arithmetic (the concrete timestamps in the specification are
integral).  Rust `Result` values are modelled by `RResult`, which has a
third outcome `panic` for `Option::unwrap` applied to `None`.

The HTTP transport (reqwest) is an external collaborator: an operation is
modelled as a function of its parameters plus a network oracle mapping the
final query-parameter list to an `HttpResponse`.
-/

namespace Prom

/-- Model of `serde_json::Value`.  Numbers are modelled as integers.
Objects are association lists; keys of a decoded JSON object are unique. -/
inductive Json where
  | null : Json
  | bool : Bool → Json
  | num : Int → Json
  | str : String → Json
  | arr : List Json → Json
  | obj : List (String × Json) → Json

/-- `serde_json::Value::as_str`: `some` exactly on JSON strings. -/
def Json.asStr : Json → Option String
  | .str s => some s
  | _ => none

/-- `serde_json::Value::as_object`: `some` exactly on JSON objects. -/
def Json.asObj : Json → Option (List (String × Json))
  | .obj fields => some fields
  | _ => none

/-- `HashMap::get` / `serde_json::Map::get`.  Keys of a decoded JSON
object are unique, so first-match lookup is a faithful model. -/
def jget (m : List (String × Json)) (k : String) : Option Json :=
  match m with
  | [] => none
  | (k2, v) :: rest => if k2 = k then some v else jget rest k

/-- The payload carried by `Error::Reqwest`: either an HTTP error status
(from `Response::error_for_status`) or a body-decoding failure (from
`Response::json`). -/
inductive ReqwestError where
  | status : Nat → ReqwestError
  | decode : ReqwestError

/-- Modelled from the spec: the error taxonomy of spec section 7 (the
crate's `Error` enum lives in `error.rs`, which is outside `src/`),
restricted to the variants constructed by the code under verification;
each variant's payload is the one supplied at its construction sites in
`src/client.rs`. -/
inductive Error where
  | Reqwest : ReqwestError → Error
  | ResponseError : String → String → Error
  | MissingField : Error
  | UnknownResponseStatus : String → Error
  | UnsupportedQueryResultType : String → Error
  | ResponseParse : Error
  | InvalidFunctionArgument : String → Error
  | InvalidDuration : Error

/-- Outcome of a Rust computation: `Ok`, `Err`, or a panic (the result of
`Option::unwrap` applied to `None`). -/
inductive RResult (α : Type) where
  | ok : α → RResult α
  | err : Error → RResult α
  | panic : RResult α

/-- `Result::and_then`; a panic propagates. -/
def RResult.bind {α β : Type} : RResult α → (α → RResult β) → RResult β
  | .ok a, f => f a
  | .err e, _ => .err e
  | .panic, _ => .panic

/-- Modelled from the spec: `Sample` (`response.rs`, outside `src/`) —
"`{timestamp: float-seconds, value: string-encoded number}`". -/
structure Sample where
  timestamp : Int
  value : String

/-- Modelled from the spec: `InstantVector` (`response.rs`, outside
`src/`) — "`{labels: mapping string→string, sample: Sample}`". -/
structure InstantVector where
  metric : List (String × String)
  sample : Sample

/-- Modelled from the spec: `RangeVector` (`response.rs`, outside
`src/`) — "`{labels: mapping string→string, samples: ordered sequence of
Sample}`". -/
structure RangeVector where
  metric : List (String × String)
  samples : List Sample

/-- Modelled from the spec: `QueryResultType` (`response.rs`, outside
`src/`) — the tagged union of the three decoded result shapes. -/
inductive QueryResultType where
  | Vector : List InstantVector → QueryResultType
  | Matrix : List RangeVector → QueryResultType
  | Scalar : Sample → QueryResultType

/-- serde decoding of `Vec<T>`: a JSON array decoded elementwise. -/
def decodeJsonList {α : Type} (f : Json → Option α) : Json → Option (List α)
  | .arr xs => xs.mapM f
  | _ => none

/-- serde decoding of `HashMap<String, String>`: a JSON object all of
whose values are strings. -/
def decodeLabelMap : Json → Option (List (String × String))
  | .obj fields => fields.mapM (fun kv =>
      match kv.2 with
      | .str s => some (kv.1, s)
      | _ => none)
  | _ => none

/-- Modelled from the spec: the deserializer of `Sample` (`response.rs`,
outside `src/`) — the wire shape is `[<float-seconds>, "<string-number>"]`. -/
def decodeSample : Json → Option Sample
  | .arr [.num t, .str v] => some ⟨t, v⟩
  | _ => none

/-- Modelled from the spec: the deserializer of `InstantVector`
(`response.rs`, outside `src/`) — the wire shape is
`{"metric": {label: value, ...}, "value": [<float-seconds>, "<string-number>"]}`. -/
def decodeInstantVector (j : Json) : Option InstantVector :=
  match j with
  | .obj fields =>
    match jget fields "metric", jget fields "value" with
    | some mj, some vj =>
      match decodeLabelMap mj, decodeSample vj with
      | some labels, some s => some ⟨labels, s⟩
      | _, _ => none
    | _, _ => none
  | _ => none

/-- Modelled from the spec: the deserializer of `RangeVector`
(`response.rs`, outside `src/`) — the wire shape is
`{"metric": {...}, "values": [[<float-seconds>, "<string-number>"], ...]}`. -/
def decodeRangeVector (j : Json) : Option RangeVector :=
  match j with
  | .obj fields =>
    match jget fields "metric", jget fields "values" with
    | some mj, some vj =>
      match decodeLabelMap mj, decodeJsonList decodeSample vj with
      | some labels, some ss => some ⟨labels, ss⟩
      | _, _ => none
    | _, _ => none
  | _ => none

/-- `check_response` (`src/client.rs` lines 973-1010), applied to the
body already decoded into a map by `Response::json`.  `ok_or(...)?` is a
`match` sending `None` to `.err`, and `.as_str().unwrap()` sends a
non-string value to `.panic`. -/
def check_response (map : List (String × Json)) :
    RResult (List (String × Json)) :=
  match jget map "status" with
  | none => .err .MissingField
  | some statusVal =>
    match statusVal.asStr with
    | none => .panic
    | some status =>
      if status = "success" then .ok map
      else if status = "error" then
        match jget map "errorType" with
        | none => .err .MissingField
        | some kindVal =>
          match kindVal.asStr with
          | none => .panic
          | some kind =>
            match jget map "error" with
            | none => .err .MissingField
            | some msgVal =>
              match msgVal.asStr with
              | none => .panic
              | some message => .err (.ResponseError kind message)
      else .err (.UnknownResponseStatus status)

/-- The `match data_type` of `convert_query_response`
(`src/client.rs` lines 1034-1052), factored out with the result-type tag
and the raw `result` value as arguments. -/
def dispatchTag (data_type : String) (data : Json) : RResult QueryResultType :=
  if data_type = "vector" then
    match decodeJsonList decodeInstantVector data with
    | none => .err .ResponseParse
    | some result => .ok (.Vector result)
  else if data_type = "matrix" then
    match decodeJsonList decodeRangeVector data with
    | none => .err .ResponseParse
    | some result => .ok (.Matrix result)
  else if data_type = "scalar" then
    match decodeSample data with
    | none => .err .ResponseParse
    | some result => .ok (.Scalar result)
  else .err (.UnsupportedQueryResultType data_type)

/-- `convert_query_response` (`src/client.rs` lines 1014-1053): reads
`data` (panicking if it is not an object), then `resultType` (panicking
if it is not a string), then the raw `result` value, and finally
dispatches on the tag. -/
def convert_query_response (response : List (String × Json)) :
    RResult QueryResultType :=
  match jget response "data" with
  | none => .err .MissingField
  | some dataVal =>
    match dataVal.asObj with
    | none => .panic
    | some data_obj =>
      match jget data_obj "resultType" with
      | none => .err .MissingField
      | some rtVal =>
        match rtVal.asStr with
        | none => .panic
        | some data_type =>
          match jget data_obj "result" with
          | none => .err .MissingField
          | some data => dispatchTag data_type data

/-- An HTTP response from the transport collaborator: status code plus
already-parsed JSON body. -/
structure HttpResponse where
  status : Nat
  body : Json

/-- Modelled from the spec: `reqwest::Response::error_for_status` is part
of the external transport collaborator; per the transport contract of
spec section 6, "The core treats any non-2xx status as
`TransportError{status}` before envelope decoding". -/
def error_for_status (r : HttpResponse) : RResult HttpResponse :=
  if 200 ≤ r.status ∧ r.status ≤ 299 then .ok r
  else .err (.Reqwest (.status r.status))

/-- `Response::json::<HashMap<String, serde_json::Value>>` inside
`check_response`: a non-object body is a decode failure mapped to
`Error::Reqwest`. -/
def parseBodyMap (j : Json) : RResult (List (String × Json)) :=
  match j with
  | .obj fields => .ok fields
  | _ => .err (.Reqwest .decode)

/-- The shared response pipeline of `Client::query` and
`Client::query_range`: `error_for_status`, body decoding,
`check_response(...).and_then(convert_query_response)`. -/
def handleQuery (resp : HttpResponse) : RResult QueryResultType :=
  (error_for_status resp).bind fun r =>
  (parseBodyMap r.body).bind fun map =>
  (check_response map).bind convert_query_response

/-- Modelled from the spec: `validate_duration` (`util.rs`, outside
`src/`) — spec section 4.3: accepts strings matching
`^[0-9]+(ms|s|m|h|d|w|y)$`; fails with `InvalidDuration` on an empty
string, a missing unit, a zero value, or an unrecognized unit. -/
def validate_duration (s : String) : Except Error Unit :=
  let digits := s.data.takeWhile Char.isDigit
  let unit := s.data.dropWhile Char.isDigit
  if digits = [] then .error .InvalidDuration
  else if digits.all (· = '0') then .error .InvalidDuration
  else if ["ms", "s", "m", "h", "d", "w", "y"].contains (String.mk unit) then
    .ok ()
  else .error .InvalidDuration

/-- The optional `start`/`end` query parameters pushed at the top of
`Client::series`, `Client::label_names` and `Client::label_values`. -/
def optParams (startTs endTs : Option Int) : List (String × String) :=
  (match startTs with
   | some t => [("start", toString t)]
   | none => []) ++
  (match endTs with
   | some t => [("end", toString t)]
   | none => [])

/-- The prefix of a character list up to and including the first
occurrence of a closing brace, or `none` when no closing brace occurs —
the list-level content of `str::split_once` followed by re-appending the
separator. -/
def trimAfterBrace : List Char → Option (List Char)
  | [] => none
  | c :: rest =>
    if c = '\x7d' then some ['\x7d']
    else (trimAfterBrace rest).map (fun l => c :: l)

/-- The selector-trimming closure of `Client::series` (`src/client.rs`
lines 342-349, repeated in `label_names` and `label_values`): on
`split_once` at the first closing brace, keep the part before it and
re-append the brace; when there is no closing brace, keep the rendered
text unchanged. -/
def trimSelector (s : String) : String :=
  match trimAfterBrace s.data with
  | some l => String.mk l
  | none => s

/-- The error message of the empty-selector-list check in
`Client::series` (`src/client.rs` line 336). -/
def seriesEmptyMessage : String :=
  "at least one match[] argument (Selector) must be provided in order to query the series endpoint"

/-- Parameter construction of `Client::query` (`src/client.rs`
lines 212-226): `query`, optional `time`, optional validated `timeout`. -/
def Client.queryParams (query : String) (time : Option Int)
    (timeout : Option String) : Except Error (List (String × String)) :=
  let params := [("query", query)] ++
    (match time with
     | some t => [("time", toString t)]
     | none => [])
  match timeout with
  | none => .ok params
  | some t =>
    match validate_duration t with
    | .error e => .error e
    | .ok _ => .ok (params ++ [("timeout", t)])

/-- `Client::query` (`src/client.rs` lines 206-241) as a function of its
arguments and a network oracle. -/
def Client.query (query : String) (time : Option Int)
    (timeout : Option String)
    (net : List (String × String) → HttpResponse) : RResult QueryResultType :=
  match Client.queryParams query time timeout with
  | .error e => .err e
  | .ok params => handleQuery (net params)

/-- Parameter construction of `Client::query_range` (`src/client.rs`
lines 251-270): `query`, `start`, `end` always; `step` and `timeout`
validated and pushed only when present.  No comparison of `start` with
`end` is performed. -/
def Client.queryRangeParams (query : String) (startTs endTs : Int)
    (step timeout : Option String) : Except Error (List (String × String)) :=
  let base := [("query", query), ("start", toString startTs),
    ("end", toString endTs)]
  match step with
  | none =>
    match timeout with
    | none => .ok base
    | some t =>
      match validate_duration t with
      | .error e => .error e
      | .ok _ => .ok (base ++ [("timeout", t)])
  | some st =>
    match validate_duration st with
    | .error e => .error e
    | .ok _ =>
      match timeout with
      | none => .ok (base ++ [("step", st)])
      | some t =>
        match validate_duration t with
        | .error e => .error e
        | .ok _ => .ok (base ++ [("step", st), ("timeout", t)])

/-- `Client::query_range` (`src/client.rs` lines 243-285) as a function
of its arguments and a network oracle. -/
def Client.query_range (query : String) (startTs endTs : Int)
    (step timeout : Option String)
    (net : List (String × String) → HttpResponse) : RResult QueryResultType :=
  match Client.queryRangeParams query startTs endTs step timeout with
  | .error e => .err e
  | .ok params => handleQuery (net params)

/-- Parameter construction of `Client::series` (`src/client.rs`
lines 320-354): optional `start`/`end`, then the empty-selector-list
check, then one trimmed `match[]` entry per selector.  A selector is
represented by its rendered text (`Selector::to_string`). -/
def Client.seriesParams (selectors : List String)
    (startTs endTs : Option Int) : Except Error (List (String × String)) :=
  if selectors.isEmpty then
    .error (.InvalidFunctionArgument seriesEmptyMessage)
  else
    .ok (optParams startTs endTs ++
      selectors.map (fun s => ("match[]", trimSelector s)))

/-- serde decoding of `Vec<HashMap<String, String>>`, the result type of
`Client::series`. -/
def decodeSeriesResult (j : Json) : Option (List (List (String × String))) :=
  decodeJsonList decodeLabelMap j

/-- `Client::series` (`src/client.rs` lines 312-372) as a function of the
rendered selector texts, the optional range, and a network oracle. -/
def Client.series (selectors : List String) (startTs endTs : Option Int)
    (net : List (String × String) → HttpResponse) :
    RResult (List (List (String × String))) :=
  match Client.seriesParams selectors startTs endTs with
  | .error e => .err e
  | .ok params =>
    (error_for_status (net params)).bind fun r =>
    (parseBodyMap r.body).bind fun map =>
    (check_response map).bind fun m =>
      match jget m "data" with
      | none => .err .MissingField
      | some data =>
        match decodeSeriesResult data with
        | none => .err .ResponseParse
        | some result => .ok result

/-- Parameter construction of `Client::label_names` (`src/client.rs`
lines 413-444): optional `start`/`end`, then one trimmed `match[]` entry
per selector when a selector list is given; no emptiness check. -/
def Client.labelNamesParams (selectors : Option (List String))
    (startTs endTs : Option Int) : List (String × String) :=
  optParams startTs endTs ++
    (match selectors with
     | some l => l.map (fun s => ("match[]", trimSelector s))
     | none => [])

/-- Parameter construction of `Client::label_values` (`src/client.rs`
lines 499-530); the label name itself goes into the URL path, not into
the query parameters. -/
def Client.labelValuesParams (selectors : Option (List String))
    (startTs endTs : Option Int) : List (String × String) :=
  optParams startTs endTs ++
    (match selectors with
     | some l => l.map (fun s => ("match[]", trimSelector s))
     | none => [])

/-- The `data`-to-`groups` extraction of `Client::rules`
(`src/client.rs` lines 642-650): `get("data")` with `MissingField`,
`.as_object().unwrap()` panicking on a non-object, then `get("groups")`
with `MissingField`. -/
def Client.rulesGroups (m : List (String × Json)) : RResult Json :=
  match jget m "data" with
  | none => .err .MissingField
  | some data =>
    match data.asObj with
    | none => .panic
    | some dataObj =>
      match jget dataObj "groups" with
      | none => .err .MissingField
      | some groups => .ok groups

/-- `Client::rules` (`src/client.rs` lines 621-657) up to the extraction
of the raw `groups` value; the subsequent serde decoding into
`Vec<RuleGroup>` (`response.rs`, outside `src/`) is not modelled because
no verified property depends on it. -/
def Client.rules (ruleType : Option String)
    (net : List (String × String) → HttpResponse) : RResult Json :=
  let params :=
    match ruleType with
    | some s => [("type", s)]
    | none => []
  (error_for_status (net params)).bind fun r =>
  (parseBodyMap r.body).bind fun map =>
  (check_response map).bind Client.rulesGroups

/-- `Status` from `src/result.rs`: serde accepts the variant name or its
lower-case alias. -/
inductive Status where
  | Success : Status
  | Error : Status

/-- `ResultType` from `src/result.rs`. -/
inductive ResultType where
  | Matrix : ResultType
  | Vector : ResultType
  | Scalar : ResultType
  | String : ResultType

/-- `Value` from `src/result.rs`: named fields `timestamp` and `value`
(the timestamp is modelled as an integer, as everywhere in this file). -/
structure Value where
  timestamp : Int
  value : String

/-- `Metric` from `src/result.rs`: the label map is read from the JSON
key `metric` (a serde rename), the value from the key `value`. -/
structure Metric where
  labels : List (String × String)
  value : Value

/-- `Data` from `src/result.rs`: the tag plus `result: Vec<Metric>` —
the same `result` shape for every tag. -/
structure Data where
  result_type : ResultType
  result : List Metric

/-- serde decoding of the unit-variant enum `ResultType`: a JSON string
equal to a variant name or to its lower-case alias. -/
def decodeResultType : Json → Option ResultType
  | .str s =>
    if s = "Matrix" ∨ s = "matrix" then some .Matrix
    else if s = "Vector" ∨ s = "vector" then some .Vector
    else if s = "Scalar" ∨ s = "scalar" then some .Scalar
    else if s = "String" ∨ s = "string" then some .String
    else none
  | _ => none

/-- serde decoding of `Value` with `deny_unknown_fields`: an object whose
keys all lie in `{timestamp, value}`, with both fields present as a
number and a string. -/
def decodeValue (j : Json) : Option Value :=
  match j with
  | .obj fields =>
    if fields.all (fun kv => kv.1 = "timestamp" ∨ kv.1 = "value") then
      match jget fields "timestamp", jget fields "value" with
      | some (.num t), some (.str v) => some ⟨t, v⟩
      | _, _ => none
    else none
  | _ => none

/-- serde decoding of `Metric` with `deny_unknown_fields`: an object
whose keys all lie in `{metric, value}`, with both fields present. -/
def decodeMetric (j : Json) : Option Metric :=
  match j with
  | .obj fields =>
    if fields.all (fun kv => kv.1 = "metric" ∨ kv.1 = "value") then
      match jget fields "metric", jget fields "value" with
      | some mj, some vj =>
        match decodeLabelMap mj, decodeValue vj with
        | some labels, some v => some ⟨labels, v⟩
        | _, _ => none
      | _, _ => none
    else none
  | _ => none

/-- serde decoding of `Data` with `deny_unknown_fields`: keys lie in
`{result_type, resultType, result}` (the first two by the serde alias),
the tag is read from either key, and `result` is decoded as
`Vec<Metric>` regardless of the tag's value. -/
def decodeData (j : Json) : Option Data :=
  match j with
  | .obj fields =>
    if fields.all (fun kv =>
        kv.1 = "result_type" ∨ kv.1 = "resultType" ∨ kv.1 = "result") then
      let rtJson :=
        match jget fields "result_type" with
        | some v => some v
        | none => jget fields "resultType"
      match rtJson, jget fields "result" with
      | some rj, some resJ =>
        match decodeResultType rj, decodeJsonList decodeMetric resJ with
        | some rt, some res => some ⟨rt, res⟩
        | _, _ => none
      | _, _ => none
    else none
  | _ => none

/-- The `data` object of the specification's scalar example. -/
def scalarData : List (String × Json) :=
  [("resultType", .str "scalar"), ("result", .arr [.num 1617960600, .str "1"])]

/-- The specification's scalar success envelope
`{"status":"success","data":{"resultType":"scalar","result":[1617960600,"1"]}}`. -/
def scalarEnvelope : List (String × Json) :=
  [("status", .str "success"), ("data", .obj scalarData)]

/-- The `data` object of the specification's histogram example. -/
def histogramData : List (String × Json) :=
  [("resultType", .str "histogram"), ("result", .obj [])]

/-- The specification's unsupported-tag envelope
`{"status":"success","data":{"resultType":"histogram","result":{}}}`. -/
def histogramEnvelope : List (String × Json) :=
  [("status", .str "success"), ("data", .obj histogramData)]

/-- The specification's error envelope
`{"status":"error","errorType":"bad_data","error":"invalid query"}`. -/
def badDataEnvelope : List (String × Json) :=
  [("status", .str "error"), ("errorType", .str "bad_data"),
   ("error", .str "invalid query")]

/-- A success envelope that violates the mutual-exclusivity invariant:
`errorType` and `error` are present alongside `data`. -/
def mixedEnvelope : List (String × Json) :=
  [("status", .str "success"), ("data", .obj scalarData),
   ("errorType", .str "bad_data"), ("error", .str "invalid query")]

/-- An error envelope that violates the mutual-exclusivity invariant:
`data` is present alongside `errorType` and `error`. -/
def errorWithDataEnvelope : List (String × Json) :=
  [("status", .str "error"), ("errorType", .str "bad_data"),
   ("error", .str "invalid query"), ("data", .obj scalarData)]

/-- A JSON value in the shape `result.rs`'s `Metric` decodes:
`{"metric": {...}, "value": {"timestamp": ..., "value": ...}}`. -/
def metricJson : Json :=
  .obj [("metric", .obj [("job", .str "x")]),
    ("value", .obj [("timestamp", .num 1617960600), ("value", .str "1")])]

/-! Helper lemmas shared by several of the claim theorems. -/

theorem check_response_success_eq (m : List (String × Json))
    (h : jget m "status" = some (.str "success")) :
    check_response m = .ok m := by
  simp [check_response, h, Json.asStr]

theorem check_response_error_eq (m : List (String × Json)) (kind msg : String)
    (h1 : jget m "status" = some (.str "error"))
    (h2 : jget m "errorType" = some (.str kind))
    (h3 : jget m "error" = some (.str msg)) :
    check_response m = .err (.ResponseError kind msg) := by
  simp [check_response, h1, h2, h3, Json.asStr]

theorem convert_eq_dispatchTag (m fieldsD : List (String × Json))
    (tag : String) (res : Json)
    (hdata : jget m "data" = some (.obj fieldsD))
    (htag : jget fieldsD "resultType" = some (.str tag))
    (hres : jget fieldsD "result" = some res) :
    convert_query_response m = dispatchTag tag res := by
  simp [convert_query_response, hdata, Json.asObj, htag, Json.asStr, hres]

/-- C1: for every success payload whose `data` object contains a
`resultType` tag and a `result` field, `convert_query_response` decodes
`result` as a list of instant-vector samples when the tag is "vector",
as a list of range-vector series when the tag is "matrix", and as a
single sample (timestamp plus string-encoded value) when the tag is
"scalar"; for every other tag value it fails with
`UnsupportedQueryResultType` carrying the raw tag, and the outcome does
not depend on decoding `result`. -/
theorem C1_result_type_dispatch
    (m fieldsD : List (String × Json)) (tag : String) (res : Json)
    (hdata : jget m "data" = some (.obj fieldsD))
    (htag : jget fieldsD "resultType" = some (.str tag))
    (hres : jget fieldsD "result" = some res) :
    (tag = "vector" → convert_query_response m =
      (match decodeJsonList decodeInstantVector res with
       | none => .err .ResponseParse
       | some v => .ok (.Vector v))) ∧
    (tag = "matrix" → convert_query_response m =
      (match decodeJsonList decodeRangeVector res with
       | none => .err .ResponseParse
       | some v => .ok (.Matrix v))) ∧
    (tag = "scalar" → convert_query_response m =
      (match decodeSample res with
       | none => .err .ResponseParse
       | some s => .ok (.Scalar s))) ∧
    (tag ≠ "vector" → tag ≠ "matrix" → tag ≠ "scalar" →
      convert_query_response m = .err (.UnsupportedQueryResultType tag)) := by
  have hconv := convert_eq_dispatchTag m fieldsD tag res hdata htag hres
  refine ⟨?_, ?_, ?_, ?_⟩
  · intro h; subst h; rw [hconv]; simp [dispatchTag]
  · intro h; subst h; rw [hconv]; simp [dispatchTag]
  · intro h; subst h; rw [hconv]; simp [dispatchTag]
  · intro h1 h2 h3; rw [hconv]; simp [dispatchTag, h1, h2, h3]

/-- C1 witness: the specification's scalar example decodes to a scalar
sample with timestamp 1617960600 and value "1", and its histogram
example fails with the raw tag. -/
theorem C1_result_type_dispatch_witness :
    convert_query_response scalarEnvelope = .ok (.Scalar ⟨1617960600, "1"⟩) ∧
    convert_query_response histogramEnvelope =
      .err (.UnsupportedQueryResultType "histogram") := by
  constructor
  · exact (C1_result_type_dispatch scalarEnvelope scalarData "scalar"
      (.arr [.num 1617960600, .str "1"]) rfl rfl rfl).2.2.1 rfl
  · exact (C1_result_type_dispatch histogramEnvelope histogramData "histogram"
      (.obj []) rfl rfl rfl).2.2.2 (by decide) (by decide) (by decide)

/-- C2: for every response body whose `status` is "error" with string
`errorType` and `error` fields, `check_response` returns `ResponseError`
carrying the envelope's `errorType` and `error` verbatim, and the query
operation returns that same error — `convert_query_response` is never
reached (the outcome is independent of the rest of the body). -/
theorem C2_api_error_verbatim
    (m : List (String × Json)) (kind msg q : String) (time : Option Int)
    (h1 : jget m "status" = some (.str "error"))
    (h2 : jget m "errorType" = some (.str kind))
    (h3 : jget m "error" = some (.str msg)) :
    check_response m = .err (.ResponseError kind msg) ∧
    Client.query q time none (fun _ => ⟨200, .obj m⟩) =
      .err (.ResponseError kind msg) := by
  have hc := check_response_error_eq m kind msg h1 h2 h3
  refine ⟨hc, ?_⟩
  simp [Client.query, Client.queryParams, handleQuery, error_for_status,
    parseBodyMap, RResult.bind, hc]

/-- C2 witness: the specification's `bad_data` error envelope. -/
theorem C2_api_error_verbatim_witness :
    check_response badDataEnvelope =
      .err (.ResponseError "bad_data" "invalid query") ∧
    Client.query "up" none none (fun _ => ⟨200, .obj badDataEnvelope⟩) =
      .err (.ResponseError "bad_data" "invalid query") :=
  C2_api_error_verbatim badDataEnvelope "bad_data" "invalid query" "up" none
    rfl rfl rfl

/-- C3: a missing `status` field yields `MissingField`; a string `status`
other than "success" and "error" yields `UnknownResponseStatus` carrying
the raw value; and for status "error", a missing `errorType` or a missing
`error` field yields `MissingField`. -/
theorem C3_status_classification :
    (∀ m : List (String × Json), jget m "status" = none →
      check_response m = .err .MissingField) ∧
    (∀ (m : List (String × Json)) (s : String),
      jget m "status" = some (.str s) → s ≠ "success" → s ≠ "error" →
      check_response m = .err (.UnknownResponseStatus s)) ∧
    (∀ m : List (String × Json),
      jget m "status" = some (.str "error") → jget m "errorType" = none →
      check_response m = .err .MissingField) ∧
    (∀ (m : List (String × Json)) (kind : String),
      jget m "status" = some (.str "error") →
      jget m "errorType" = some (.str kind) → jget m "error" = none →
      check_response m = .err .MissingField) := by
  refine ⟨?_, ?_, ?_, ?_⟩
  · intro m h; simp [check_response, h]
  · intro m s h hs1 hs2; simp [check_response, h, Json.asStr, hs1, hs2]
  · intro m h1 h2; simp [check_response, h1, h2, Json.asStr]
  · intro m kind h1 h2 h3; simp [check_response, h1, h2, h3, Json.asStr]

/-- C3 witness: concrete bodies exercising each of the four branches. -/
theorem C3_status_classification_witness :
    check_response [] = .err .MissingField ∧
    check_response [("status", .str "weird")] =
      .err (.UnknownResponseStatus "weird") ∧
    check_response [("status", .str "error")] = .err .MissingField ∧
    check_response [("status", .str "error"), ("errorType", .str "bad_data")] =
      .err .MissingField :=
  ⟨C3_status_classification.1 [] rfl,
   C3_status_classification.2.1 _ "weird" rfl (by decide) (by decide),
   C3_status_classification.2.2.1 _ rfl rfl,
   C3_status_classification.2.2.2 _ "bad_data" rfl rfl rfl⟩

/-- C4: a non-2xx HTTP response makes the query and series operations
return the transport error carrying the status code; the outcome is the
same for every response body, so the body is never handed to the
envelope decoder.  The other operations share the identical
`error_for_status`-first pipeline. -/
theorem C4_non_2xx_short_circuits
    (q : String) (time : Option Int) (resp : HttpResponse)
    (sel : String) (sels : List String) (startTs endTs : Option Int)
    (h : ¬(200 ≤ resp.status ∧ resp.status ≤ 299)) :
    Client.query q time none (fun _ => resp) =
      .err (.Reqwest (.status resp.status)) ∧
    Client.series (sel :: sels) startTs endTs (fun _ => resp) =
      .err (.Reqwest (.status resp.status)) := by
  constructor
  · simp [Client.query, Client.queryParams, handleQuery, error_for_status, h,
      RResult.bind]
  · simp [Client.series, Client.seriesParams, error_for_status, h,
      RResult.bind]

/-- C4 witness: a 404 response with a well-formed success body still
yields the transport error. -/
theorem C4_non_2xx_short_circuits_witness :
    Client.query "up" none none (fun _ => ⟨404, .obj scalarEnvelope⟩) =
      .err (.Reqwest (.status 404)) ∧
    Client.series ["up"] none none (fun _ => ⟨404, .obj scalarEnvelope⟩) =
      .err (.Reqwest (.status 404)) :=
  C4_non_2xx_short_circuits "up" none ⟨404, .obj scalarEnvelope⟩ "up" [] none
    none (by decide)

/-- C5: calling the series operation with an empty selector list returns
`InvalidFunctionArgument` for every range and every network oracle, so
the outcome never depends on the network and no call is made. -/
theorem C5_series_empty_selectors (startTs endTs : Option Int)
    (net : List (String × String) → HttpResponse) :
    Client.series [] startTs endTs net =
      .err (.InvalidFunctionArgument seriesEmptyMessage) := by
  simp [Client.series, Client.seriesParams]

theorem trimAfterBrace_append (a b : List Char) (ha : '\x7d' ∉ a) :
    trimAfterBrace (a ++ '\x7d' :: b) = some (a ++ ['\x7d']) := by
  induction a with
  | nil => simp [trimAfterBrace]
  | cons c rest ih =>
    simp only [List.mem_cons, not_or] at ha
    simp [trimAfterBrace, Ne.symm ha.1, ih ha.2]

theorem trimAfterBrace_none (a : List Char) (ha : '\x7d' ∉ a) :
    trimAfterBrace a = none := by
  induction a with
  | nil => rfl
  | cons c rest ih =>
    simp only [List.mem_cons, not_or] at ha
    simp [trimAfterBrace, Ne.symm ha.1, ih ha.2]

/-- C6: every `match[]` parameter sent by the discovery operations equals
the selector's rendered text truncated at the first closing brace with
the brace retained, or the unchanged text when it contains no closing
brace. -/
theorem C6_match_param_trimming :
    (∀ (a b : List Char), '\x7d' ∉ a →
      trimSelector (String.mk (a ++ '\x7d' :: b)) = String.mk (a ++ ['\x7d'])) ∧
    (∀ s : String, '\x7d' ∉ s.data → trimSelector s = s) ∧
    (∀ (sel : String) (rest : List String) (st en : Option Int),
      Client.seriesParams (sel :: rest) st en =
        .ok (optParams st en ++
          (sel :: rest).map (fun s => ("match[]", trimSelector s)))) ∧
    (∀ (sels : List String) (st en : Option Int),
      Client.labelNamesParams (some sels) st en =
        optParams st en ++ sels.map (fun s => ("match[]", trimSelector s))) ∧
    (∀ (sels : List String) (st en : Option Int),
      Client.labelValuesParams (some sels) st en =
        optParams st en ++ sels.map (fun s => ("match[]", trimSelector s))) := by
  refine ⟨?_, ?_, ?_, ?_, ?_⟩
  · intro a b ha
    simp [trimSelector, trimAfterBrace_append a b ha]
  · intro s hs
    simp [trimSelector, trimAfterBrace_none s.data hs]
  · intro sel rest st en
    simp [Client.seriesParams]
  · intro sels st en; rfl
  · intro sels st en; rfl

/-- C6 witness: the rendered text `up\x7b\x7d[5m]` is trimmed to
`up\x7b\x7d`, brace-free text is unchanged, and the series parameters
carry exactly the trimmed texts. -/
theorem C6_match_param_trimming_witness :
    trimSelector (String.mk ['u', 'p', '\x7b', '\x7d', '[', '5', 'm', ']']) =
      String.mk ['u', 'p', '\x7b', '\x7d'] ∧
    trimSelector "up" = "up" ∧
    Client.seriesParams ["up"] none none = .ok [("match[]", "up")] :=
  ⟨C6_match_param_trimming.1 ['u', 'p', '\x7b'] ['[', '5', 'm', ']']
      (by decide),
   C6_match_param_trimming.2.1 "up" (by decide),
   C6_match_param_trimming.2.2.1 "up" [] none none⟩

/-- C7 counterexample: an invocation of the range-query operation with no
step and with start greater than end is not rejected before the network
call — it reaches the network and its outcome is the network's answer. -/
theorem C7_range_query_counterexample :
    Client.query_range "up" 2 1 none none
      (fun _ => ⟨200, .obj scalarEnvelope⟩) =
        .ok (.Scalar ⟨1617960600, "1"⟩) ∧
    Client.query_range "up" 2 1 none none
      (fun _ => ⟨200, .obj badDataEnvelope⟩) =
        .err (.ResponseError "bad_data" "invalid query") := by
  constructor <;> rfl

/-- C7 amended: the range-query operation treats the step as optional and
performs no start/end comparison — with no step and no timeout it always
proceeds to the network call carrying exactly the query, start and end
parameters, for every start/end pair. -/
theorem C7_range_query_params_amended (q : String) (s e : Int)
    (net : List (String × String) → HttpResponse) :
    Client.query_range q s e none none net =
      handleQuery (net [("query", q), ("start", toString s),
        ("end", toString e)]) := by
  rfl

/-- C8 counterexample: a success envelope carrying `errorType` and
`error` alongside `data` is accepted by `check_response` rather than
rejected as a protocol violation. -/
theorem C8_mutual_exclusivity_counterexample :
    check_response mixedEnvelope = .ok mixedEnvelope := by
  rfl

/-- C8 amended: `check_response` validates only the `status` token and,
for status "error", the presence of string `errorType`/`error` fields; it
does not enforce mutual exclusivity — an envelope with status "success"
is accepted whatever other fields are present, and an error envelope
yields the `ResponseError` even when `data` is present. -/
theorem C8_status_only_validation_amended :
    (∀ m : List (String × Json), jget m "status" = some (.str "success") →
      check_response m = .ok m) ∧
    (∀ (m : List (String × Json)) (kind msg : String),
      jget m "status" = some (.str "error") →
      jget m "errorType" = some (.str kind) →
      jget m "error" = some (.str msg) →
      check_response m = .err (.ResponseError kind msg)) :=
  ⟨check_response_success_eq, check_response_error_eq⟩

/-- C8 amended witness: the two invariant-violating envelopes. -/
theorem C8_status_only_validation_amended_witness :
    check_response mixedEnvelope = .ok mixedEnvelope ∧
    check_response errorWithDataEnvelope =
      .err (.ResponseError "bad_data" "invalid query") :=
  ⟨C8_status_only_validation_amended.1 mixedEnvelope rfl,
   C8_status_only_validation_amended.2 errorWithDataEnvelope "bad_data"
     "invalid query" rfl rfl rfl⟩

/-- C9 counterexample: the typed envelope decoder of `result.rs` fixes a
single `result` shape independent of the tag — the well-formed scalar
payload under the "scalar" tag fails to decode, while a vector-shaped
`Vec<Metric>` payload under the same "scalar" tag succeeds. -/
theorem C9_fixed_shape_counterexample :
    decodeData (.obj [("resultType", .str "scalar"),
      ("result", .arr [.num 1617960600, .str "1"])]) = none ∧
    decodeData (.obj [("resultType", .str "scalar"),
      ("result", .arr [metricJson])]) =
      some ⟨.Scalar, [⟨[("job", "x")], ⟨1617960600, "1"⟩⟩]⟩ := by
  constructor <;> rfl

/-- C9 amended: the dispatch path `convert_query_response` determines the
shape of `result` from the tag after reading it (the same payload decodes
under the "scalar" tag and fails under the "vector" tag), while the typed
decoder `Data` of `result.rs` decodes `result` as `Vec<Metric>` for every
recognized tag. -/
theorem C9_tag_shape_amended :
    (∀ (rt : String) (t : ResultType) (res : Json),
      decodeResultType (.str rt) = some t →
      decodeData (.obj [("resultType", .str rt), ("result", res)]) =
        (decodeJsonList decodeMetric res).map (fun ms => ⟨t, ms⟩)) ∧
    convert_query_response scalarEnvelope =
      .ok (.Scalar ⟨1617960600, "1"⟩) ∧
    convert_query_response [("status", .str "success"),
      ("data", .obj [("resultType", .str "vector"),
        ("result", .arr [.num 1617960600, .str "1"])])] =
      .err .ResponseParse := by
  refine ⟨?_, by rfl, by rfl⟩
  intro rt t res h
  simp only [decodeData, jget, h]
  norm_num
  cases hd : decodeJsonList decodeMetric res <;> simp [hd, h]

/-- C9 amended witness: the `Data` decoder at the "matrix" tag with an
empty `result` array. -/
theorem C9_tag_shape_amended_witness :
    decodeData (.obj [("resultType", .str "matrix"), ("result", .arr [])]) =
      some ⟨.Matrix, []⟩ :=
  C9_tag_shape_amended.1 "matrix" .Matrix (.arr []) rfl

/-- C10: the decoding functions are not total over well-formed JSON
bodies — a non-string `status` makes `check_response` panic; a success
body with a non-object `data`, or a non-string `resultType`, makes
`convert_query_response` panic; and a rules response with a non-object
`data` makes the rules operation panic. -/
theorem C10_decoder_panics :
    check_response [("status", .num 5)] = .panic ∧
    convert_query_response
      [("status", .str "success"), ("data", .str "nope")] = .panic ∧
    convert_query_response [("status", .str "success"),
      ("data", .obj [("resultType", .num 1), ("result", .arr [])])] =
      .panic ∧
    Client.rules none (fun _ => ⟨200, .obj [("status", .str "success"),
      ("data", .num 2)]⟩) = .panic :=
  ⟨rfl, rfl, rfl, rfl⟩

end Prom
